import Mathlib

/-!
Verification of the tele-new-summariser core against its specification.

Shallow embedding of the repository's Python modules:
* `smart_sampler.py`  — `SmartSampler.sample_messages`
* `cost_tracker.py`   — `CostTracker` ledger operations
* `timeframe_parser.py` — `TimeframeParser.parse`
* `bot.py`            — `/summarize` argument handling

Money amounts are embedded as exact rationals (the Python source uses
binary floating point; every comparison settled below has margins far
wider than double rounding error, and the control flow is identical).
Python `int` is embedded as `Int`, `datetime` instants as `Int`
microseconds since an arbitrary epoch.
-/

namespace TeleSummariser

/-! ## smart_sampler.py -/

/-- A stored chat message as consumed by `SmartSampler.sample_messages`:
the sampler reads `m.get('text', '')` and `m.get('date', datetime.min)`;
messages produced by `store_message` always carry both fields. -/
structure Message where
  text : String
  date : Int
  deriving Repr, DecidableEq

/-- `sorted(segment, key=lambda m: len(m.get('text', '')), reverse=True)`:
Python's sort is stable; `reverse=True` keeps ties in original order,
which matches a stable sort under this comparator. -/
def lenDescRel (a b : Message) : Prop := b.text.length ≤ a.text.length

instance : DecidableRel lenDescRel := fun a b => Nat.decLe b.text.length a.text.length

/-- `sampled_messages.sort(key=lambda m: m.get('date', datetime.min))`. -/
def dateLeRel (a b : Message) : Prop := a.date ≤ b.date

instance : DecidableRel dateLeRel := fun a b => Int.decLe a.date b.date

instance : IsTotal Message dateLeRel := ⟨fun a b => le_total a.date b.date⟩

instance : IsTrans Message dateLeRel := ⟨fun _ _ _ hab hbc => le_trans hab hbc⟩

/-- The per-segment `take_count` values produced by the loop in
`sample_messages`: each iteration takes `messages_per_segment`, plus one
extra while `remaining_messages > 0` (decremented as it is consumed). -/
def takeCountList : Nat → Nat → Nat → List Nat
  | 0, _, _ => []
  | k + 1, mps, rem =>
    if 0 < rem then (mps + 1) :: takeCountList k mps (rem - 1)
    else mps :: takeCountList k mps rem

/-- Segment `i` of the loop: `messages[start_idx:end_idx]` with
`start_idx = i * segment_size` and `end_idx = (i+1) * segment_size`,
except the last segment which extends to `len(messages)`. -/
def segmentsOf (msgs : List Message) (numSegments segSize : Nat) : List (List Message) :=
  (List.range numSegments).map fun i =>
    let s := i * segSize
    let e := if i = numSegments - 1 then msgs.length else (i + 1) * segSize
    (msgs.drop s).take (e - s)

/-- `int(j * step)` with `step = len(segment) / take_count`: Python computes
`step` in floating point and truncates; both values are non-negative so
truncation is the floor.  (In every reachable call `j = 0`, where the two
arithmetics agree exactly.) -/
def evenIdx (segLen takeCount j : Nat) : Nat :=
  (Int.floor ((j : ℚ) * ((segLen : ℚ) / (takeCount : ℚ)))).toNat

/-- Selection within one segment: the `prioritize_engagement` branch sorts
by text length descending and takes a prefix; the other branch returns the
whole segment when small enough, else evenly spaced positions.  Python
would raise `IndexError` on an out-of-range index; the embedding drops
such an index (`get?`/`filterMap`), which never happens on reachable
inputs. -/
def pickFromSegment (prioritize : Bool) (seg : List Message) (takeCount : Nat) : List Message :=
  if prioritize then (List.insertionSort lenDescRel seg).take takeCount
  else if seg.length ≤ takeCount then seg
  else (List.range takeCount).filterMap fun j => seg.get? (evenIdx seg.length takeCount j)

/-- `SmartSampler.sample_messages(messages, target_size, prioritize_engagement)`. -/
def sample_messages (messages : List Message) (target_size : Int)
    (prioritize_engagement : Bool) : List Message :=
  if (messages.length : Int) ≤ target_size then messages
  else if target_size ≤ 0 then []
  else
    let t := target_size.toNat
    let num_segments := min t messages.length
    let messages_per_segment := t / num_segments
    let remaining_messages := t % num_segments
    let segment_size := messages.length / num_segments
    let sampled := (List.zipWith (pickFromSegment prioritize_engagement)
      (segmentsOf messages num_segments segment_size)
      (takeCountList num_segments messages_per_segment remaining_messages)).flatten
    List.insertionSort dateLeRel sampled

lemma pickFromSegment_length_le (p : Bool) (seg : List Message) (c : Nat) :
    (pickFromSegment p seg c).length ≤ c := by
  unfold pickFromSegment
  split
  · simp [List.length_take_le, List.length_insertionSort]
  · split
    · assumption
    · calc ((List.range c).filterMap _).length ≤ (List.range c).length :=
            List.length_filterMap_le _ _
        _ = c := List.length_range c

lemma zipWith_pick_join_length_le (p : Bool) :
    ∀ (segs : List (List Message)) (counts : List Nat),
      ((List.zipWith (pickFromSegment p) segs counts).flatten).length ≤ counts.sum := by
  intro segs
  induction segs with
  | nil => intro counts; simp
  | cons s ss ih =>
    intro counts
    cases counts with
    | nil => simp
    | cons c cs =>
      simp only [List.zipWith_cons_cons, List.flatten_cons, List.length_append, List.sum_cons]
      exact Nat.add_le_add (pickFromSegment_length_le p s c) (ih cs)

lemma takeCountList_sum_zero_rem (k mps : Nat) :
    (takeCountList k mps 0).sum = k * mps := by
  induction k with
  | zero => simp [takeCountList]
  | succ n ih => simp [takeCountList, ih, Nat.succ_mul, Nat.add_comm]

lemma sample_messages_length_le (msgs : List Message) (t : Int) (p : Bool) :
    ((sample_messages msgs t p).length : Int) ≤ max 0 t := by
  unfold sample_messages
  split
  · next h => exact le_trans h (le_max_right 0 t)
  · split
    · simp
    · next hlen hpos =>
      simp only []
      rw [List.length_insertionSort]
      have ht : (0 : Int) < t := lt_of_not_le hpos
      have htnat : 1 ≤ t.toNat := by omega
      have hlt : t.toNat < msgs.length := by omega
      have hmin : min t.toNat msgs.length = t.toNat := by omega
      rw [hmin, Nat.div_self htnat, Nat.mod_self, max_eq_right (le_of_lt ht)]
      have hb := zipWith_pick_join_length_le p
        (segmentsOf msgs t.toNat (msgs.length / t.toNat))
        (takeCountList t.toNat 1 0)
      rw [takeCountList_sum_zero_rem, Nat.mul_one] at hb
      omega

lemma sample_messages_chrono (msgs : List Message) (t : Int) (p : Bool)
    (hs : msgs.Pairwise (fun a b => a.date ≤ b.date)) :
    (sample_messages msgs t p).Pairwise (fun a b => a.date ≤ b.date) := by
  unfold sample_messages
  split
  · exact hs
  · split
    · simp
    · exact List.sorted_insertionSort dateLeRel _

/-- C6: for every message list and target, the sampled output has length
at most `max 0 t`, and when the input is chronologically ordered the
output is non-decreasing in occurrence instant. -/
theorem C6_sample_messages_bounded_and_chronological
    (msgs : List Message) (t : Int) (p : Bool) :
    ((sample_messages msgs t p).length : Int) ≤ max 0 t ∧
      (msgs.Pairwise (fun a b => a.date ≤ b.date) →
        (sample_messages msgs t p).Pairwise (fun a b => a.date ≤ b.date)) :=
  ⟨sample_messages_length_le msgs t p, sample_messages_chrono msgs t p⟩

/-- Witness for C6 at a concrete chronologically ordered three-message
list with target 2. -/
theorem C6_witness :
    ((sample_messages [⟨"aa", 1⟩, ⟨"b", 2⟩, ⟨"cccc", 3⟩] 2 true).length : Int) ≤ max 0 2 ∧
      (sample_messages [⟨"aa", 1⟩, ⟨"b", 2⟩, ⟨"cccc", 3⟩] 2 true).Pairwise
        (fun a b => a.date ≤ b.date) :=
  ⟨(C6_sample_messages_bounded_and_chronological _ 2 true).1,
   (C6_sample_messages_bounded_and_chronological _ 2 true).2 (by decide)⟩

/-- C7: sampling is a no-op at or below target, and a non-empty input
with a non-positive target yields the empty sequence. -/
theorem C7_sample_messages_noop_and_empty (msgs : List Message) (t : Int) (p : Bool) :
    ((msgs.length : Int) ≤ t → sample_messages msgs t p = msgs) ∧
      (msgs ≠ [] → t ≤ 0 → sample_messages msgs t p = []) := by
  constructor
  · intro h
    unfold sample_messages
    simp [h]
  · intro hne ht
    unfold sample_messages
    have hlen : ¬ ((msgs.length : Int) ≤ t) := by
      have : 0 < msgs.length := List.length_pos.mpr hne
      omega
    simp [hlen, ht]

/-- Witness for C7: no-op on a two-message list with target 5, empty
output on the same list with target 0. -/
theorem C7_witness :
    sample_messages [⟨"x", 1⟩, ⟨"y", 2⟩] 5 true = [⟨"x", 1⟩, ⟨"y", 2⟩] ∧
      sample_messages [⟨"x", 1⟩, ⟨"y", 2⟩] 0 true = [] :=
  ⟨(C7_sample_messages_noop_and_empty [⟨"x", 1⟩, ⟨"y", 2⟩] 5 true).1 (by decide),
   (C7_sample_messages_noop_and_empty [⟨"x", 1⟩, ⟨"y", 2⟩] 0 true).2 (by decide) (by decide)⟩

/-! ## cost_tracker.py -/

/-- `INPUT_TOKEN_COST = 0.25 / 1_000_000`. -/
def INPUT_TOKEN_COST : ℚ := (25 / 100) / 1000000

/-- `OUTPUT_TOKEN_COST = 1.25 / 1_000_000`. -/
def OUTPUT_TOKEN_COST : ℚ := (125 / 100) / 1000000

/-- `WARNING_THRESHOLDS = [50, 75, 90]`. -/
def WARNING_THRESHOLDS : List Nat := [50, 75, 90]

/-- One archived period, as appended to `self.data['history']`. -/
structure HistoryEntry where
  month : String
  total_cost : ℚ
  input_tokens : Int
  output_tokens : Int
  request_count : Int
  deriving Repr, DecidableEq

/-- The mutable state of a `CostTracker`: the persisted `self.data` dict
plus the in-memory `self.warnings_sent` set (modelled as a duplicate-free
list used only through membership). -/
structure TrackerState where
  current_month : String
  total_cost : ℚ
  input_tokens : Int
  output_tokens : Int
  request_count : Int
  history : List HistoryEntry
  warnings_sent : List Nat
  deriving Repr, DecidableEq

/-- The dict appended to `self.data['history']` on archive: the prior
period's month and totals. -/
def prior_entry (st : TrackerState) : HistoryEntry :=
  ⟨st.current_month, st.total_cost, st.input_tokens, st.output_tokens, st.request_count⟩

/-- `CostTracker._check_and_reset_month`, with the wall-clock month
(`datetime.now(timezone.utc).strftime('%Y-%m')`) passed explicitly. -/
def check_and_reset_month (nowMonth : String) (st : TrackerState) : TrackerState :=
  if st.current_month ≠ nowMonth then
    let hist1 := st.history ++ [prior_entry st]
    let hist2 := if hist1.length > 12 then hist1.drop (hist1.length - 12) else hist1
    { current_month := nowMonth, total_cost := 0, input_tokens := 0, output_tokens := 0,
      request_count := 0, history := hist2, warnings_sent := [] }
  else st

/-- `CostTracker.calculate_cost`. -/
def calculate_cost (input_tokens output_tokens : Int) : ℚ :=
  input_tokens * INPUT_TOKEN_COST + output_tokens * OUTPUT_TOKEN_COST

/-- Result of `can_make_request`: the returned `(can_proceed,
error_message)` pair plus the tracker state after the call (the Python
method mutates `self`). -/
structure GateResult where
  can_proceed : Bool
  error_message : Option String
  state : TrackerState
  deriving Repr

/-- The budget-exceeded message of `can_make_request` (Python formats the
amounts with fixed decimals; the embedding prints the exact rationals,
which the claims never inspect beyond presence). -/
def budget_error_message (total budget : ℚ) (remainingDays : Int) : String :=
  "🚫 **Monthly Budget Limit Reached**\n\n" ++
    "Current spending: $" ++ toString total ++ "\n" ++
    "Monthly budget: $" ++ toString budget ++ "\n" ++
    "Budget resets in " ++ toString remainingDays ++ " day(s) (on the 1st of next month)\n\n" ++
    "Please check back after the reset or contact the bot administrator."

/-- `CostTracker.can_make_request(estimated_tokens)`; `monthly_budget`,
the wall-clock month, and `_days_until_reset()` are explicit inputs. -/
def can_make_request (budget : ℚ) (nowMonth : String) (remainingDays : Int)
    (st : TrackerState) (estimated_tokens : Int) : GateResult :=
  let st1 := check_and_reset_month nowMonth st
  let estimated_cost := estimated_tokens * OUTPUT_TOKEN_COST
  let projected_total := st1.total_cost + estimated_cost
  if projected_total > budget then
    ⟨false, some (budget_error_message st1.total_cost budget remainingDays), st1⟩
  else
    ⟨true, none, st1⟩

/-- The dict returned by `track_request`. -/
structure Receipt where
  request_cost : ℚ
  total_cost : ℚ
  budget_used_pct : ℚ
  remaining_budget : ℚ
  input_tokens : Int
  output_tokens : Int
  deriving Repr, DecidableEq

/-- `CostTracker.track_request(input_tokens, output_tokens)` (it performs
no month check). -/
def track_request (budget : ℚ) (st : TrackerState)
    (input_tokens output_tokens : Int) : Receipt × TrackerState :=
  let cost := calculate_cost input_tokens output_tokens
  let st1 := { st with
    total_cost := st.total_cost + cost,
    input_tokens := st.input_tokens + input_tokens,
    output_tokens := st.output_tokens + output_tokens,
    request_count := st.request_count + 1 }
  let pct := st1.total_cost / budget * 100
  (⟨cost, st1.total_cost, pct, budget - st1.total_cost, input_tokens, output_tokens⟩, st1)

/-- The loop of `check_warning_thresholds` over
`sorted(WARNING_THRESHOLDS, reverse=True)`: the first threshold with
`budget_used_pct >= threshold` not yet in `warnings_sent` is added to the
set and returned; `get_usage_stats` (called to build the payload) runs
`_check_and_reset_month`. -/
def fireLoop (nowMonth : String) (pct : ℚ) (st : TrackerState) :
    List Nat → Option Nat × TrackerState
  | [] => (none, st)
  | thr :: rest =>
    if (thr : ℚ) ≤ pct ∧ thr ∉ st.warnings_sent then
      let st1 := { st with warnings_sent := thr :: st.warnings_sent }
      (some thr, check_and_reset_month nowMonth st1)
    else fireLoop nowMonth pct st rest

/-- `sorted(self.WARNING_THRESHOLDS, reverse=True)` (a stable descending
sort, like Python's). -/
def natDescRel (a b : Nat) : Prop := b ≤ a

instance : DecidableRel natDescRel := fun a b => Nat.decLe b a

/-- `CostTracker.check_warning_thresholds()`: the warning payload is
represented by the fired threshold percentage. -/
def check_warning_thresholds (budget : ℚ) (nowMonth : String)
    (st : TrackerState) : Option Nat × TrackerState :=
  let budget_used_pct := st.total_cost / budget * 100
  fireLoop nowMonth budget_used_pct st (List.insertionSort natDescRel WARNING_THRESHOLDS)

/-- C5: when the stored period differs from the wall-clock month, rollover
appends the prior period totals to the history, zeroes every current
counter, sets the period identifier to the current month, and keeps the
history at length at most 12 with the oldest entries dropped first (the
new history is the tail-end slice `[-12:]` of the appended history). -/
theorem C5_rollover_archives_and_resets (nowMonth : String) (st : TrackerState)
    (h : st.current_month ≠ nowMonth) :
    (check_and_reset_month nowMonth st).current_month = nowMonth ∧
      (check_and_reset_month nowMonth st).total_cost = 0 ∧
      (check_and_reset_month nowMonth st).input_tokens = 0 ∧
      (check_and_reset_month nowMonth st).output_tokens = 0 ∧
      (check_and_reset_month nowMonth st).request_count = 0 ∧
      (check_and_reset_month nowMonth st).history =
        (st.history ++ [prior_entry st]).drop (st.history.length + 1 - 12) ∧
      (check_and_reset_month nowMonth st).history.length ≤ 12 := by
  unfold check_and_reset_month
  rw [if_pos h]
  dsimp only
  have hlen : (st.history ++ [prior_entry st]).length = st.history.length + 1 := by simp
  refine ⟨rfl, rfl, rfl, rfl, rfl, ?_, ?_⟩
  · split
    · next hgt => rw [hlen]
    · next hle =>
      rw [hlen] at hle
      have h0 : st.history.length + 1 - 12 = 0 := by omega
      rw [h0, List.drop_zero]
  · split
    · next hgt =>
      rw [List.length_drop, hlen]
      omega
    · next hle =>
      rw [hlen] at hle ⊢
      omega

/-- Witness for C5: rolling a stored `"2024-01"` state over to
`"2024-02"` zeroes the cost counter and keeps the history within the cap. -/
theorem C5_witness :
    (check_and_reset_month "2024-02"
      ⟨"2024-01", 5, 100, 200, 3, [], [50]⟩).total_cost = 0 ∧
      (check_and_reset_month "2024-02"
        ⟨"2024-01", 5, 100, 200, 3, [], [50]⟩).history.length ≤ 12 :=
  ⟨(C5_rollover_archives_and_resets "2024-02" _ (by decide)).2.1,
   (C5_rollover_archives_and_resets "2024-02" _ (by decide)).2.2.2.2.2.2⟩

/-- C10: the per-token rates are non-negative constants, and every
`track_request` with non-negative token counts leaves the cumulative cost
and token counters at least their previous values and increments the
request count by exactly one. -/
theorem C10_track_request_monotone (budget : ℚ) (st : TrackerState) (i o : Int)
    (hi : 0 ≤ i) (ho : 0 ≤ o) :
    0 ≤ INPUT_TOKEN_COST ∧ 0 ≤ OUTPUT_TOKEN_COST ∧
      st.total_cost ≤ (track_request budget st i o).2.total_cost ∧
      st.input_tokens ≤ (track_request budget st i o).2.input_tokens ∧
      st.output_tokens ≤ (track_request budget st i o).2.output_tokens ∧
      (track_request budget st i o).2.request_count = st.request_count + 1 := by
  have hin : (0 : ℚ) ≤ INPUT_TOKEN_COST := by norm_num [INPUT_TOKEN_COST]
  have hout : (0 : ℚ) ≤ OUTPUT_TOKEN_COST := by norm_num [OUTPUT_TOKEN_COST]
  have hiq : (0 : ℚ) ≤ (i : ℚ) := by exact_mod_cast hi
  have hoq : (0 : ℚ) ≤ (o : ℚ) := by exact_mod_cast ho
  have hcost : 0 ≤ calculate_cost i o := by
    unfold calculate_cost
    have := mul_nonneg hiq hin
    have := mul_nonneg hoq hout
    linarith
  refine ⟨hin, hout, ?_, ?_, ?_, rfl⟩
  · show st.total_cost ≤ st.total_cost + calculate_cost i o
    linarith
  · show st.input_tokens ≤ st.input_tokens + i
    omega
  · show st.output_tokens ≤ st.output_tokens + o
    omega

/-- Witness for C10 at a concrete state and token counts. -/
theorem C10_witness :
    (track_request 10 ⟨"2024-01", 1, 10, 20, 2, [], []⟩ 300 400).2.request_count = 2 + 1 ∧
      (10 : Int) ≤ (track_request 10 ⟨"2024-01", 1, 10, 20, 2, [], []⟩ 300 400).2.input_tokens :=
  ⟨(C10_track_request_monotone 10 ⟨"2024-01", 1, 10, 20, 2, [], []⟩ 300 400
      (by norm_num) (by norm_num)).2.2.2.2.2,
   (C10_track_request_monotone 10 ⟨"2024-01", 1, 10, 20, 2, [], []⟩ 300 400
      (by norm_num) (by norm_num)).2.2.2.1⟩

/-- C4: from a same-period state with zero cumulative cost, a gate call
whose projected cost alone exceeds the budget is denied with a reason
message and leaves the whole tracker state (hence every cumulative
counter) unchanged. -/
theorem C4_deny_leaves_state_unchanged (budget : ℚ) (nowMonth : String)
    (days : Int) (st : TrackerState) (est : Int)
    (hm : st.current_month = nowMonth) (h0 : st.total_cost = 0)
    (hover : (est : ℚ) * OUTPUT_TOKEN_COST > budget) :
    (can_make_request budget nowMonth days st est).can_proceed = false ∧
      (can_make_request budget nowMonth days st est).error_message.isSome = true ∧
      (can_make_request budget nowMonth days st est).state = st := by
  have hreset : check_and_reset_month nowMonth st = st := by
    unfold check_and_reset_month
    simp [hm]
  unfold can_make_request
  rw [hreset]
  have hcond : st.total_cost + (est : ℚ) * OUTPUT_TOKEN_COST > budget := by
    rw [h0]; linarith
  simp [hcond]

/-- Witness for C4: budget 10, a zero state, and an 8 000 001-token
estimate (projected cost 10.00000125) is denied without a state change. -/
theorem C4_witness :
    (can_make_request 10 "2024-01" 5 ⟨"2024-01", 0, 0, 0, 0, [], []⟩ 8000001).can_proceed
        = false ∧
      (can_make_request 10 "2024-01" 5
        ⟨"2024-01", 0, 0, 0, 0, [], []⟩ 8000001).state.total_cost = 0 := by
  have h := C4_deny_leaves_state_unchanged 10 "2024-01" 5
    ⟨"2024-01", 0, 0, 0, 0, [], []⟩ 8000001 rfl rfl
    (by norm_num [OUTPUT_TOKEN_COST])
  exact ⟨h.1, by rw [h.2.2]⟩

/-- Folding a sequence of `track_request` calls over a tracker state. -/
def apply_records (budget : ℚ) (st : TrackerState) : List (Int × Int) → TrackerState
  | [] => st
  | r :: rest => apply_records budget (track_request budget st r.1 r.2).2 rest

lemma apply_records_total_cost (budget : ℚ) :
    ∀ (rs : List (Int × Int)) (st : TrackerState),
      (apply_records budget st rs).total_cost =
        st.total_cost + (rs.map fun r => calculate_cost r.1 r.2).sum ∧
        (apply_records budget st rs).current_month = st.current_month := by
  intro rs
  induction rs with
  | nil => intro st; simp [apply_records]
  | cons r rest ih =>
    intro st
    have h := ih (track_request budget st r.1 r.2).2
    have hstep : apply_records budget st (r :: rest)
        = apply_records budget (track_request budget st r.1 r.2).2 rest := rfl
    have htc : (track_request budget st r.1 r.2).2.total_cost
        = st.total_cost + calculate_cost r.1 r.2 := rfl
    have hcm : (track_request budget st r.1 r.2).2.current_month = st.current_month := rfl
    refine ⟨?_, ?_⟩
    · rw [hstep, h.1, htc, List.map_cons, List.sum_cons]
      ring
    · rw [hstep, h.2, hcm]

/-- C3 counterexample: one recorded request of 7 999 000 output tokens
costs 9.99875 < 10, yet the next gate call (default 2 000-token estimate)
projects 10.00125 > 10 and is denied — so a summed recorded cost strictly
below budget does not guarantee allowance. -/
theorem C3_counterexample :
    (track_request 10 ⟨"2024-01", 0, 0, 0, 0, [], []⟩ 0 7999000).2.total_cost < 10 ∧
      (can_make_request 10 "2024-01" 1
        (track_request 10 ⟨"2024-01", 0, 0, 0, 0, [], []⟩ 0 7999000).2 2000).can_proceed
        = false := by
  constructor
  · show (0 : ℚ) + ((0 : Int) * INPUT_TOKEN_COST + (7999000 : Int) * OUTPUT_TOKEN_COST) < 10
    norm_num [INPUT_TOKEN_COST, OUTPUT_TOKEN_COST]
  · unfold can_make_request check_and_reset_month
    norm_num [track_request, calculate_cost, INPUT_TOKEN_COST, OUTPUT_TOKEN_COST]

/-- C3 (amended): from a same-period state with zero cumulative cost, a
sequence of recorded requests never triggers a gate denial provided the
summed recorded cost *plus the gate's own projected cost* (estimated
tokens at the output rate) is at most the budget. -/
theorem C3_amended_gate_allows (budget : ℚ) (nowMonth : String) (days : Int)
    (st : TrackerState) (rs : List (Int × Int)) (est : Int)
    (hm : st.current_month = nowMonth) (h0 : st.total_cost = 0)
    (hsum : (rs.map fun r => calculate_cost r.1 r.2).sum
        + (est : ℚ) * OUTPUT_TOKEN_COST ≤ budget) :
    (can_make_request budget nowMonth days (apply_records budget st rs) est).can_proceed
      = true := by
  have htot := (apply_records_total_cost budget rs st).1
  have hmon := (apply_records_total_cost budget rs st).2
  have hreset : check_and_reset_month nowMonth (apply_records budget st rs)
      = apply_records budget st rs := by
    unfold check_and_reset_month
    rw [hmon, hm]
    simp
  unfold can_make_request
  rw [hreset]
  have hcond : ¬ ((apply_records budget st rs).total_cost
      + (est : ℚ) * OUTPUT_TOKEN_COST > budget) := by
    rw [htot, h0]
    linarith
  simp [hcond]

/-- Witness for C3 (amended): one 1 000 000-output-token record
(cost 1.25) followed by a 2 000-token gate (projection 0.0025) is
allowed under a 10-dollar budget. -/
theorem C3_amended_witness :
    (can_make_request 10 "2024-01" 1
      (apply_records 10 ⟨"2024-01", 0, 0, 0, 0, [], []⟩ [(0, 1000000)]) 2000).can_proceed
      = true :=
  C3_amended_gate_allows 10 "2024-01" 1 ⟨"2024-01", 0, 0, 0, 0, [], []⟩
    [(0, 1000000)] 2000 rfl rfl
    (by norm_num [calculate_cost, INPUT_TOKEN_COST, OUTPUT_TOKEN_COST])

/-- C2 counterexample: from a fresh period at 95% budget use (cost 9.5 of
budget 10), one `check_warning_thresholds` call fires 90 but leaves 75
unmarked, and the very next call fires 75 — so a threshold skipped over by
a single large request does fire on a later call, contradicting the claim
that every threshold at or below the percentage is marked at once. -/
theorem C2_counterexample :
    (check_warning_thresholds 10 "2024-01" ⟨"2024-01", 19/2, 0, 0, 0, [], []⟩).1
        = some 90 ∧
      (75 ∉ (check_warning_thresholds 10 "2024-01"
        ⟨"2024-01", 19/2, 0, 0, 0, [], []⟩).2.warnings_sent) ∧
      (check_warning_thresholds 10 "2024-01"
        (check_warning_thresholds 10 "2024-01"
          ⟨"2024-01", 19/2, 0, 0, 0, [], []⟩).2).1 = some 75 := by
  have e1 : check_warning_thresholds 10 "2024-01" ⟨"2024-01", 19/2, 0, 0, 0, [], []⟩
      = (some 90, ⟨"2024-01", 19/2, 0, 0, 0, [], [90]⟩) := by
    norm_num [check_warning_thresholds, fireLoop, check_and_reset_month,
      WARNING_THRESHOLDS, natDescRel, List.insertionSort, List.orderedInsert]
  have e2 : check_warning_thresholds 10 "2024-01" ⟨"2024-01", 19/2, 0, 0, 0, [], [90]⟩
      = (some 75, ⟨"2024-01", 19/2, 0, 0, 0, [], [75, 90]⟩) := by
    norm_num [check_warning_thresholds, fireLoop, check_and_reset_month,
      WARNING_THRESHOLDS, natDescRel, List.insertionSort, List.orderedInsert]
  refine ⟨by rw [e1], by rw [e1]; decide, by rw [e1, e2]⟩

/-- C2 (amended): within one period, each `check_warning_thresholds` call
fires at most one threshold — the highest not-yet-fired one at or below
the current percentage — and marks exactly that threshold as sent; every
higher threshold also at or below the percentage was already marked.
Thresholds skipped by a single large request stay unmarked and fire on
later calls of the same period, each still at most once. -/
theorem C2_amended_highest_unfired_threshold (budget : ℚ) (nowMonth : String)
    (st : TrackerState) (thr : Nat) (hm : st.current_month = nowMonth)
    (hfire : (check_warning_thresholds budget nowMonth st).1 = some thr) :
    thr ∈ WARNING_THRESHOLDS ∧ (thr : ℚ) ≤ st.total_cost / budget * 100 ∧
      thr ∉ st.warnings_sent ∧
      (check_warning_thresholds budget nowMonth st).2.warnings_sent
        = thr :: st.warnings_sent ∧
      (∀ thr2 ∈ WARNING_THRESHOLDS, thr < thr2 →
        (thr2 : ℚ) ≤ st.total_cost / budget * 100 → thr2 ∈ st.warnings_sent) := by
  have hres : ∀ l : List Nat,
      check_and_reset_month nowMonth { st with warnings_sent := l }
        = { st with warnings_sent := l } := by
    intro l
    unfold check_and_reset_month
    simp [hm]
  unfold check_warning_thresholds at hfire ⊢
  have hsort : List.insertionSort natDescRel WARNING_THRESHOLDS = [90, 75, 50] := rfl
  rw [hsort] at hfire ⊢
  unfold fireLoop at hfire ⊢
  by_cases h90 : ((90 : Nat) : ℚ) ≤ st.total_cost / budget * 100 ∧
      (90 : Nat) ∉ st.warnings_sent
  · rw [if_pos h90] at hfire ⊢
    simp only [Option.some.injEq] at hfire
    subst hfire
    refine ⟨by decide, h90.1, h90.2, ?_, ?_⟩
    · show (check_and_reset_month nowMonth
        { st with warnings_sent := 90 :: st.warnings_sent }).warnings_sent = _
      rw [hres]
    · intro thr2 h2 hlt _
      exfalso
      simp [WARNING_THRESHOLDS] at h2
      rcases h2 with rfl | rfl | rfl <;> omega
  · rw [if_neg h90] at hfire ⊢
    unfold fireLoop at hfire ⊢
    by_cases h75 : ((75 : Nat) : ℚ) ≤ st.total_cost / budget * 100 ∧
        (75 : Nat) ∉ st.warnings_sent
    · rw [if_pos h75] at hfire ⊢
      simp only [Option.some.injEq] at hfire
      subst hfire
      refine ⟨by decide, h75.1, h75.2, ?_, ?_⟩
      · show (check_and_reset_month nowMonth
          { st with warnings_sent := 75 :: st.warnings_sent }).warnings_sent = _
        rw [hres]
      · intro thr2 h2 hlt hpct
        simp [WARNING_THRESHOLDS] at h2
        rcases h2 with rfl | rfl | rfl
        · omega
        · omega
        · by_contra hnot
          exact h90 ⟨by push_cast at hpct ⊢; linarith, hnot⟩
    · rw [if_neg h75] at hfire ⊢
      unfold fireLoop at hfire ⊢
      by_cases h50 : ((50 : Nat) : ℚ) ≤ st.total_cost / budget * 100 ∧
          (50 : Nat) ∉ st.warnings_sent
      · rw [if_pos h50] at hfire ⊢
        simp only [Option.some.injEq] at hfire
        subst hfire
        refine ⟨by decide, h50.1, h50.2, ?_, ?_⟩
        · show (check_and_reset_month nowMonth
            { st with warnings_sent := 50 :: st.warnings_sent }).warnings_sent = _
          rw [hres]
        · intro thr2 h2 hlt hpct
          simp [WARNING_THRESHOLDS] at h2
          rcases h2 with rfl | rfl | rfl
          · omega
          · by_contra hnot
            exact h75 ⟨by push_cast at hpct ⊢; linarith, hnot⟩
          · by_contra hnot
            exact h90 ⟨by push_cast at hpct ⊢; linarith, hnot⟩
      · rw [if_neg h50] at hfire
        simp [fireLoop] at hfire

/-- Witness for C2 (amended): at 80% use with 90 already marked, the call
fires 75, marks it, and 90 (the only higher eligible threshold) was
already in the sent set. -/
theorem C2_amended_witness :
    75 ∈ WARNING_THRESHOLDS ∧
      ((75 : Nat) : ℚ) ≤ (8 : ℚ) / 10 * 100 ∧
      75 ∉ [90] ∧
      (check_warning_thresholds 10 "2024-01"
        ⟨"2024-01", 8, 0, 0, 0, [], [90]⟩).2.warnings_sent = 75 :: [90] := by
  have h := C2_amended_highest_unfired_threshold 10 "2024-01"
    ⟨"2024-01", 8, 0, 0, 0, [], [90]⟩ 75 rfl (by
      norm_num [check_warning_thresholds, fireLoop, check_and_reset_month,
        WARNING_THRESHOLDS, natDescRel, List.insertionSort, List.orderedInsert])
  exact ⟨h.1, h.2.1, h.2.2.1, h.2.2.2.1⟩

/-! ## timeframe_parser.py

Instants are `Int` microseconds since the Unix epoch (UTC).  The regex
patterns of the source are embedded as structural token matchers: on the
stripped, lowered input, `^A\s+B\s+...$` matches exactly when splitting
on whitespace runs yields the token list `[A, B, ...]` with each token of
the required shape (Python `\d` is modelled as the ASCII digits the
inputs of interest use). -/

def MICROS_PER_HOUR : Int := 3600000000

def MICROS_PER_DAY : Int := 86400000000

def MICROS_PER_WEEK : Int := 604800000000

/-- Microseconds from 00:00:00.000000 to 23:59:59.999999. -/
def END_OF_DAY_OFFSET : Int := 86399999999

/-- `text.lower()` (ASCII range, which covers the grammar's keywords). -/
def lower_str (s : String) : String := ⟨s.data.map Char.toLower⟩

/-- `text.strip()`. -/
def strip_str (s : String) : String :=
  ⟨((s.data.dropWhile Char.isWhitespace).reverse.dropWhile Char.isWhitespace).reverse⟩

/-- `text.strip().lower()` as performed at the top of `parse`. -/
def normalize_query (text : String) : String := lower_str (strip_str text)

/-- Split on runs of whitespace, dropping empty pieces: the token
decomposition induced by `\s+` separators in the anchored regexes. -/
def wordsAux : List Char → List Char → List (List Char)
  | [], acc => if acc.isEmpty then [] else [acc.reverse]
  | c :: cs, acc =>
    if c.isWhitespace then
      if acc.isEmpty then wordsAux cs [] else acc.reverse :: wordsAux cs []
    else wordsAux cs (c :: acc)

def tokens (s : String) : List String := (wordsAux s.data []).map fun cs => ⟨cs⟩

/-- Numeric value of a digit string (the regex guarantees digits only). -/
def digits_val (cs : List Char) : Int :=
  ((cs.foldl (fun n c => n * 10 + (c.toNat - Char.toNat '0')) 0 : Nat) : Int)

/-- The capture shape `\d{4}-\d{2}-\d{2}`, yielding `(year, month, day)`. -/
def date_shape (s : String) : Option (Int × Int × Int) :=
  match s.data with
  | [a, b, c, d, h1, e, f, h2, g, h] =>
    if ([a, b, c, d, e, f, g, h].all Char.isDigit) ∧ h1 = '-' ∧ h2 = '-' then
      some (digits_val [a, b, c, d], digits_val [e, f], digits_val [g, h])
    else none
  | _ => none

/-- `RELATIVE_PATTERN`: `^last\s+(\d+)\s+(hour|hours|day|days|week|weeks)$`
(matched against the already-lowered text). -/
def relative_match (t : String) : Option (Int × String) :=
  match tokens t with
  | [w, n, u] =>
    if w = "last" ∧ n ≠ "" ∧ n.data.all Char.isDigit ∧
        (u = "hour" ∨ u = "hours" ∨ u = "day" ∨ u = "days" ∨ u = "week" ∨ u = "weeks") then
      some (digits_val n.data, u)
    else none
  | _ => none

/-- `DATE_RANGE_PATTERN`: `^from\s+(\d{4}-\d{2}-\d{2})\s+to\s+(\d{4}-\d{2}-\d{2})$`,
returning the two captured date fields. -/
def date_range_match (t : String) : Option ((Int × Int × Int) × (Int × Int × Int)) :=
  match tokens t with
  | [w1, d1, w2, d2] =>
    if w1 = "from" ∧ w2 = "to" then
      match date_shape d1, date_shape d2 with
      | some f1, some f2 => some (f1, f2)
      | _, _ => none
    else none
  | _ => none

/-- `SINGLE_DATE_PATTERN`: `^on\s+(\d{4}-\d{2}-\d{2})$`. -/
def single_date_match (t : String) : Option (Int × Int × Int) :=
  match tokens t with
  | [w, d] => if w = "on" then date_shape d else none
  | _ => none

/-- Gregorian leap-year rule used by `datetime`. -/
def is_leap_year (y : Int) : Bool := (y % 4 = 0 ∧ y % 100 ≠ 0) ∨ y % 400 = 0

def days_in_month (y m : Int) : Int :=
  if m = 2 then (if is_leap_year y then 29 else 28)
  else if m = 4 ∨ m = 6 ∨ m = 9 ∨ m = 11 then 30 else 31

/-- The calendar validation performed by
`datetime.strptime(s, '%Y-%m-%d')` (which raises `ValueError` on
out-of-range fields; `datetime` years run 1–9999). -/
def valid_date (f : Int × Int × Int) : Bool :=
  1 ≤ f.1 ∧ f.1 ≤ 9999 ∧ 1 ≤ f.2.1 ∧ f.2.1 ≤ 12 ∧
    1 ≤ f.2.2 ∧ f.2.2 ≤ days_in_month f.1 f.2.1

/-- Days from 1970-01-01 to the given civil date (standard
days-from-civil algorithm; all intermediate divisions act on
non-negative values for valid dates). -/
def days_from_civil (f : Int × Int × Int) : Int :=
  let y := if f.2.1 ≤ 2 then f.1 - 1 else f.1
  let era := (if 0 ≤ y then y else y - 399) / 400
  let yoe := y - era * 400
  let doy := (153 * (f.2.1 + (if 2 < f.2.1 then -3 else 9)) + 2) / 5 + f.2.2 - 1
  let doe := yoe * 365 + yoe / 4 - yoe / 100 + doy
  era * 146097 + doe - 719468

/-- `date.replace(hour=0, minute=0, second=0, microsecond=0)` in UTC. -/
def start_of_day (f : Int × Int × Int) : Int := days_from_civil f * MICROS_PER_DAY

/-- `date.replace(hour=23, minute=59, second=59, microsecond=999999)`. -/
def end_of_day (f : Int × Int × Int) : Int := start_of_day f + END_OF_DAY_OFFSET

/-- `TimeframeParser._parse_date_range` on the two captured dates:
`strptime` validation (`except ValueError: return None`), then the
start-after-end rejection. -/
def parse_date_range (f1 f2 : Int × Int × Int) : Option (Int × Int) :=
  if valid_date f1 ∧ valid_date f2 then
    if start_of_day f1 > end_of_day f2 then none
    else some (start_of_day f1, end_of_day f2)
  else none

/-- `TimeframeParser._parse_single_date` on the captured date. -/
def parse_single_date (f : Int × Int × Int) : Option (Int × Int) :=
  if valid_date f then some (start_of_day f, end_of_day f) else none

/-- `now.replace(hour=0, ...)`: floor a UTC instant to its day. -/
def floor_to_day (t : Int) : Int := t - t % MICROS_PER_DAY

/-- `TimeframeParser._parse_today`. -/
def parse_today (now : Int) : Int × Int :=
  (floor_to_day now, floor_to_day now + END_OF_DAY_OFFSET)

/-- `TimeframeParser._parse_yesterday`. -/
def parse_yesterday (now : Int) : Int × Int :=
  (floor_to_day (now - MICROS_PER_DAY),
    floor_to_day (now - MICROS_PER_DAY) + END_OF_DAY_OFFSET)

/-- `TimeframeParser._parse_relative`: singularize the unit, pick the
delta (the final `else` arm, unreachable past the regex, is
`timedelta(hours=24)`), and return `[now - delta, now]`. -/
def parse_relative (now : Int) (amount : Int) (unit : String) : Int × Int :=
  let u := if unit.endsWith "s" then unit.dropRight 1 else unit
  let delta :=
    if u = "hour" then MICROS_PER_HOUR * amount
    else if u = "day" then MICROS_PER_DAY * amount
    else if u = "week" then MICROS_PER_WEEK * amount
    else MICROS_PER_DAY
  (now - delta, now)

/-- `TimeframeParser.parse`, with the wall clock passed explicitly. -/
def parse (now : Int) (text : String) : Option (Int × Int) :=
  if normalize_query text = "today" then some (parse_today now)
  else if normalize_query text = "yesterday" then some (parse_yesterday now)
  else
    match relative_match (normalize_query text) with
    | some (n, u) => some (parse_relative now n u)
    | none =>
      match date_range_match (normalize_query text) with
      | some (f1, f2) => parse_date_range f1 f2
      | none =>
        match single_date_match (normalize_query text) with
        | some f => parse_single_date f
        | none => none

/-- C1: contrary to the spec (and to the repository's own
`test_features.py`, which expects `'60d'`, `'2mo'`, `'3w'`, `'24h'` to
parse, and to the `/summarize` help text advertising `24h`/`60d`/`2mo`),
`TimeframeParser.parse` recognizes no compact `<N><unit>` shorthand: for
every clock value it returns not-a-timeframe on `"24h"`, `"3w"` and
`"2mo"`, while the equivalent `last N unit` form is accepted. -/
theorem C1_shorthand_not_recognized (now : Int) :
    parse now "24h" = none ∧ parse now "3w" = none ∧ parse now "2mo" = none ∧
      parse now "last 24 hours" = some (parse_relative now 24 "hours") :=
  ⟨rfl, rfl, rfl, rfl⟩

lemma date_range_match_tokens {u : String} {f1 f2 : Int × Int × Int}
    (h : date_range_match u = some (f1, f2)) :
    ∃ s1 s2, tokens u = ["from", s1, "to", s2] ∧
      date_shape s1 = some f1 ∧ date_shape s2 = some f2 := by
  unfold date_range_match at h
  split at h
  · next w1 d1 w2 d2 heq =>
    split at h
    · next hc =>
      split at h
      · next g1 g2 heq1 heq2 =>
        simp only [Option.some.injEq, Prod.mk.injEq] at h
        obtain ⟨rfl, rfl⟩ := h
        obtain ⟨hw1, hw2⟩ := hc
        subst hw1
        subst hw2
        exact ⟨d1, d2, heq, heq1, heq2⟩
      · next => simp at h
    · simp at h
  · next => simp at h

/-- C8: whenever the input matches the `from A to B` pattern and the
parsed start instant (start of day A) exceeds the parsed end instant
(end of day B), `parse` returns not-a-timeframe — never a swapped range
and never a crash. -/
theorem C8_inverted_range_rejected (now : Int) (text : String)
    (f1 f2 : Int × Int × Int)
    (hmatch : date_range_match (normalize_query text) = some (f1, f2))
    (hgt : start_of_day f1 > end_of_day f2) :
    parse now text = none := by
  obtain ⟨s1, s2, htok, hs1, hs2⟩ := date_range_match_tokens hmatch
  have htoday : normalize_query text ≠ "today" := by
    intro h
    rw [h] at htok
    have h5 : tokens "today" = ["today"] := rfl
    rw [h5] at htok
    injection htok with h1 _
    exact absurd h1 (by decide)
  have hyest : normalize_query text ≠ "yesterday" := by
    intro h
    rw [h] at htok
    have h5 : tokens "yesterday" = ["yesterday"] := rfl
    rw [h5] at htok
    injection htok with h1 _
    exact absurd h1 (by decide)
  have hrel : relative_match (normalize_query text) = none := by
    unfold relative_match
    rw [htok]
  unfold parse
  rw [if_neg htoday, if_neg hyest, hrel, hmatch]
  show parse_date_range f1 f2 = none
  unfold parse_date_range
  by_cases hv : (valid_date f1 = true) ∧ (valid_date f2 = true)
  · rw [if_pos hv, if_pos hgt]
  · rw [if_neg hv]

/-- Witness for C8: `from 2024-01-20 to 2024-01-15` (start after end)
parses to none. -/
theorem C8_witness : parse 0 "from 2024-01-20 to 2024-01-15" = none :=
  C8_inverted_range_rejected 0 "from 2024-01-20 to 2024-01-15"
    (2024, 1, 20) (2024, 1, 15) (by decide) (by decide)

/-! ## bot.py — `/summarize` argument handling -/

def MAX_STORED_MESSAGES : Int := 100

/-- `int(context.args[0])` (Python `int()` on a plain decimal numeral,
optionally signed; `except ValueError` is the `none` case). -/
def python_int (s : String) : Option Int :=
  match s.data with
  | '-' :: cs => if cs ≠ [] ∧ cs.all Char.isDigit then some (-(digits_val cs)) else none
  | '+' :: cs => if cs ≠ [] ∧ cs.all Char.isDigit then some (digits_val cs) else none
  | cs => if cs ≠ [] ∧ cs.all Char.isDigit then some (digits_val cs) else none

/-- The resolved request of `summary_command`: the message-count limit
actually used and the optional timeframe. -/
structure SummaryRequest where
  custom_limit : Int
  timeframe : Option (Int × Int)
  deriving Repr, DecidableEq

/-- The argument handling of `summary_command` (`bot.py`): a single
integer argument is clamped to `[1, MAX_STORED_MESSAGES]` with no
timeframe; otherwise the joined argument text is parsed as a timeframe
(`none` models the invalid-timeframe error reply, which aborts the
request). `message_limit` is the configured `MESSAGE_LIMIT` default. -/
def single_arg_case (now : Int) (message_limit : Int) (a : String) : Option SummaryRequest :=
  match python_int a with
  | some n =>
    some ⟨if n < 1 then 1 else if n > MAX_STORED_MESSAGES then MAX_STORED_MESSAGES else n,
      none⟩
  | none =>
    match parse now a with
    | some tf => some ⟨message_limit, some tf⟩
    | none => none

def summary_command_args (now : Int) (message_limit : Int)
    (args : List String) : Option SummaryRequest :=
  match args with
  | [] => some ⟨message_limit, none⟩
  | [a] => single_arg_case now message_limit a
  | _ =>
    match parse now (String.intercalate " " args) with
    | some tf => some ⟨message_limit, some tf⟩
    | none => none

/-- C9: a single integer argument yields a request with no timeframe
whose message count is the argument clamped to `[1, 100]`: below 1
becomes 1, above `MAX_STORED_MESSAGES = 100` becomes 100, in-range
values pass through. -/
theorem C9_single_int_arg_clamped (now message_limit : Int) (a : String) (n : Int)
    (hint : python_int a = some n) :
    ∃ req, summary_command_args now message_limit [a] = some req ∧
      req.timeframe = none ∧
      1 ≤ req.custom_limit ∧ req.custom_limit ≤ 100 ∧
      (n < 1 → req.custom_limit = 1) ∧
      (100 < n → req.custom_limit = 100) ∧
      (1 ≤ n → n ≤ 100 → req.custom_limit = n) := by
  have hstep : summary_command_args now message_limit [a]
      = single_arg_case now message_limit a := rfl
  refine ⟨⟨if n < 1 then 1 else if n > MAX_STORED_MESSAGES then MAX_STORED_MESSAGES else n,
    none⟩, ?_, rfl, ?_⟩
  · rw [hstep]
    unfold single_arg_case
    rw [hint]
  · unfold MAX_STORED_MESSAGES
    refine ⟨?_, ?_, ?_, ?_, ?_⟩ <;> dsimp only <;> split_ifs <;> omega

/-- Witness for C9: argument `"500"` is clamped into `[1, 100]`. -/
theorem C9_witness :
    ∃ req, summary_command_args 0 75 ["500"] = some req ∧
      1 ≤ req.custom_limit ∧ req.custom_limit ≤ 100 := by
  obtain ⟨req, h1, _, h3, h4, _⟩ := C9_single_int_arg_clamped 0 75 "500" 500 (by decide)
  exact ⟨req, h1, h3, h4⟩

end TeleSummariser
